import Mathlib

/-!
Verification development for the wearable-analytics repository
(`src/models/data_models.py`, `src/services/analytics_service.py`).

Numbers that Python represents as `float` are modelled as exact rationals
(`ℚ`); Python `int` is modelled as `ℤ` (or `ℕ` where the value is a length).
Python `round` on a float is round-half-to-even; it is modelled by
`roundHalfEven` below.  Optional values (`None`) are modelled by `Option`.
The untyped `rawData: Optional[Dict[str, Any]]` attribute present on every
record is carried by no computation of the service and is omitted from the
embedded structures.
-/

/-! ## Data model (from `src/models/data_models.py`) -/

/-- Sleep stages breakdown (`SleepStages`). -/
structure SleepStages where
  light : ℚ
  deep : ℚ
  rem : ℚ
  awake : ℚ
deriving DecidableEq

/-- Sleep need breakdown (`SleepNeeded`). -/
structure SleepNeeded where
  baseline : ℚ
  debt : ℚ
  strain : ℚ
  total : ℚ
deriving DecidableEq

/-- Sleep data record (`SleepData`). -/
structure SleepData where
  userId : String
  recordId : String
  dataType : String
  sleepId : String
  startTime : ℤ
  endTime : ℤ
  duration : ℚ
  qualityDuration : ℚ
  latency : ℚ
  disturbanceCount : ℤ
  sleepStages : SleepStages
  sleepNeeded : SleepNeeded
  respiratoryRate : ℚ
  heartRate : ℚ
  hrv : ℚ
  ttl : ℤ
  createdAt : ℤ
deriving DecidableEq

/-- Recovery data record (`RecoveryData`). -/
structure RecoveryData where
  userId : String
  recordId : String
  dataType : String
  cycleId : String
  recoveryScore : ℚ
  hrv : ℚ
  restingHeartRate : ℚ
  hrvRmssd : ℚ
  spo2 : Option ℚ
  skinTemp : Option ℚ
  ttl : ℤ
  createdAt : ℤ
deriving DecidableEq

/-- Cycle data record (`CycleData`). -/
structure CycleData where
  userId : String
  recordId : String
  dataType : String
  cycleId : String
  startTime : ℤ
  endTime : ℤ
  days : List String
  strain : ℚ
  kilojoules : ℚ
  averageHeartRate : ℚ
  maxHeartRate : ℚ
  ttl : ℤ
  createdAt : ℤ
deriving DecidableEq

/-- Physiological sample (`PhysiologicalData`). -/
structure PhysiologicalData where
  userId : String
  recordId : String
  dataType : String
  timestamp : ℤ
  heartRate : ℚ
  heartRateVariability : Option ℚ
  respiratoryRate : ℚ
  skinTemp : ℚ
  spo2 : Option ℚ
  ttl : ℤ
  createdAt : ℤ
deriving DecidableEq

/-- Data completeness flags (`DataCompleteness`). -/
structure DataCompleteness where
  hasSleep : Bool
  hasRecovery : Bool
  hasWorkout : Bool
  hasCycle : Bool
  hasPhysiological : Bool
deriving DecidableEq

/-- Daily summary record (`DailySummary`), before pydantic validation. -/
structure DailySummary where
  userId : String
  recordId : String
  date : String
  recoveryScore : Option ℚ
  sleepQualityScore : Option ℚ
  totalStrain : Option ℚ
  sleepDuration : Option ℚ
  averageHRV : Option ℚ
  restingHeartRate : Option ℚ
  respiratoryRate : Option ℚ
  dataCompleteness : DataCompleteness
  computedAt : ℤ
  ttl : ℤ
deriving DecidableEq

/-- Checks a predicate on an optional value, true when absent (pydantic
constraints on `Optional` fields only apply to present values). -/
def optAllB (o : Option ℚ) (p : ℚ → Bool) : Bool :=
  match o with
  | none => true
  | some v => p v

/-- Pydantic `Field` constraints of `SleepData` (validated at construction). -/
def SleepData.valid (sd : SleepData) : Bool :=
  decide (0 ≤ sd.duration) && decide (0 ≤ sd.qualityDuration) &&
  decide (0 ≤ sd.latency) && decide (0 ≤ sd.disturbanceCount) &&
  decide (0 ≤ sd.sleepStages.light) && decide (0 ≤ sd.sleepStages.deep) &&
  decide (0 ≤ sd.sleepStages.rem) && decide (0 ≤ sd.sleepStages.awake) &&
  decide (0 ≤ sd.sleepNeeded.baseline) && decide (0 ≤ sd.sleepNeeded.strain) &&
  decide (0 ≤ sd.sleepNeeded.total) &&
  decide (0 < sd.respiratoryRate) && decide (0 < sd.heartRate) &&
  decide (0 < sd.hrv)

/-- Pydantic `Field` constraints of `RecoveryData`. -/
def RecoveryData.valid (r : RecoveryData) : Bool :=
  decide (0 ≤ r.recoveryScore) && decide (r.recoveryScore ≤ 100) &&
  decide (0 < r.hrv) && decide (0 < r.restingHeartRate) &&
  decide (0 < r.hrvRmssd) &&
  optAllB r.spo2 (fun v => decide (0 ≤ v) && decide (v ≤ 100))

/-- Pydantic `Field` constraints of `CycleData`. -/
def CycleData.valid (c : CycleData) : Bool :=
  decide (0 ≤ c.strain) && decide (c.strain ≤ 21) &&
  decide (0 ≤ c.kilojoules) && decide (0 < c.averageHeartRate) &&
  decide (0 < c.maxHeartRate)

/-- Pydantic `Field` constraints of `PhysiologicalData`. -/
def PhysiologicalData.valid (p : PhysiologicalData) : Bool :=
  decide (0 < p.heartRate) &&
  optAllB p.heartRateVariability (fun v => decide (0 < v)) &&
  decide (0 < p.respiratoryRate) &&
  optAllB p.spo2 (fun v => decide (0 ≤ v) && decide (v ≤ 100))

/-! ## Rounding (Python `round` on a float: round half to even) -/

/-- Round half to even on rationals, the behaviour of Python `round`. -/
def roundHalfEven (q : ℚ) : ℤ :=
  if q - ⌊q⌋ < 1/2 then ⌊q⌋
  else if 1/2 < q - ⌊q⌋ then ⌊q⌋ + 1
  else if ⌊q⌋ % 2 = 0 then ⌊q⌋ else ⌊q⌋ + 1

/-! ## Scorer (from `AnalyticsService.calculate_sleep_quality_score`) -/

/-- Duration sub-score of the scorer: the if-chain of the source on
`duration_hours`. -/
def durationScore (h : ℚ) : ℚ :=
  if 7 ≤ h ∧ h ≤ 9 then 40
  else if 6 ≤ h ∧ h < 7 then 30
  else if 5 ≤ h ∧ h < 6 then 20
  else if 9 < h ∧ h ≤ 10 then 30
  else 10

/-- The source's `efficiency`: `qualityDuration / duration if duration > 0
else 0`. -/
def sleepEfficiency (sd : SleepData) : ℚ :=
  if 0 < sd.duration then sd.qualityDuration / sd.duration else 0

/-- Efficiency sub-score: `min(40, efficiency * 40)`. -/
def efficiencyScore (sd : SleepData) : ℚ :=
  min 40 (sleepEfficiency sd * 40)

/-- Disturbance sub-score: `max(0, 20 - disturbanceCount * 2)` (Python
integer arithmetic). -/
def disturbanceScore (sd : SleepData) : ℤ :=
  max 0 (20 - sd.disturbanceCount * 2)

/-- The scorer `calculate_sleep_quality_score`: sum of the three sub-scores,
clamped into `[0, 100]` as `min(100, max(0, total))`, then `round`ed. -/
def calculateSleepQualityScore (sd : SleepData) : ℤ :=
  roundHalfEven (min 100 (max 0
    (durationScore (sd.duration / (1000 * 60 * 60)) + efficiencyScore sd +
      (disturbanceScore sd : ℚ))))

/-! ## Spec-side scorer definitions (written from the spec's words, for
comparison with the source embedding above) -/

/-- The spec's ordered bracket list for the duration sub-score: value `40`
on `[7,9]`, `30` on `[6,7)`, `20` on `[5,6)`, `30` on `(9,10]`. -/
def specDurationBrackets : List ((ℚ → Bool) × ℚ) :=
  [(fun h => decide (7 ≤ h ∧ h ≤ 9), 40),
   (fun h => decide (6 ≤ h ∧ h < 7), 30),
   (fun h => decide (5 ≤ h ∧ h < 6), 20),
   (fun h => decide (9 < h ∧ h ≤ 10), 30)]

/-- Returns the value of the first bracket whose condition matches, the
default otherwise ("boundaries belong to the first matching bracket in the
order above"). -/
def firstBracket (l : List ((ℚ → Bool) × ℚ)) (dflt : ℚ) (h : ℚ) : ℚ :=
  match l with
  | [] => dflt
  | (c, v) :: rest => if c h then v else firstBracket rest dflt h

/-- Spec-side duration sub-score: first matching bracket, otherwise `10`. -/
def specDurationSub (h : ℚ) : ℚ :=
  firstBracket specDurationBrackets 10 h

/-- Spec-side efficiency sub-score: `min(40, (quality_duration / duration)
* 40)`, contributing `0` when duration is `0`. -/
def specEfficiencySub (sd : SleepData) : ℚ :=
  if sd.duration = 0 then 0
  else min 40 (sd.qualityDuration / sd.duration * 40)

/-- Spec-side disturbance sub-score: `max(0, 20 - 2 * disturbanceCount)`. -/
def specDisturbanceSub (c : ℤ) : ℤ :=
  max 0 (20 - 2 * c)

/-! ## Date validation

`DailySummary.validate_date_format` runs
`datetime.strptime(v, '%Y-%m-%d')`.  CPython compiles the format to the
regular expression `(?P<Y>\d\d\d\d)\-(?P<m>1[0-2]|0[1-9]|[1-9])\-`
`(?P<d>3[0-1]|[1-2]\d|0[1-9]|[1-9]| [1-9])`, requires it to consume the
whole string, and then builds a `datetime`, which additionally requires
`1 <= year` and `day <= days_in_month(year, month)`.  The fields contain no
dash, so the string is equivalently split at its dashes. -/

/-- Splits a character list at every dash. -/
def splitDashes (cs : List Char) : List (List Char) :=
  match cs with
  | [] => [[]]
  | c :: rest =>
      let r := splitDashes rest
      if c = '-' then [] :: r
      else
        match r with
        | [] => [[c]]
        | g :: gs => (c :: g) :: gs

/-- Decimal value of a digit string. -/
def digitsVal (cs : List Char) : ℕ :=
  cs.foldl (fun a c => 10 * a + (c.toNat - 48)) 0

/-- Gregorian leap year test, as in `datetime`. -/
def isLeapYear (y : ℕ) : Bool :=
  decide (y % 4 = 0) && (decide (y % 100 ≠ 0) || decide (y % 400 = 0))

/-- Days in a month, as in `datetime`. -/
def daysInMonth (y m : ℕ) : ℕ :=
  if m = 2 then (if isLeapYear y then 29 else 28)
  else if m = 4 ∨ m = 6 ∨ m = 9 ∨ m = 11 then 30
  else 31

/-- The `%Y` field: exactly four digits. -/
def yearFieldOK (cs : List Char) : Bool :=
  decide (cs.length = 4) && cs.all Char.isDigit

/-- The `%m` field: `1[0-2]|0[1-9]|[1-9]`, i.e. one or two digits with
value in `[1, 12]`. -/
def monthFieldOK (cs : List Char) : Bool :=
  cs.all Char.isDigit && decide (1 ≤ cs.length) && decide (cs.length ≤ 2) &&
  decide (1 ≤ digitsVal cs) && decide (digitsVal cs ≤ 12)

/-- The `%d` field: `3[0-1]|[1-2]\d|0[1-9]|[1-9]| [1-9]`, i.e. one or two
digits with value in `[1, 31]`, or a space followed by a nonzero digit. -/
def dayFieldOK (cs : List Char) : Bool :=
  (cs.all Char.isDigit && decide (1 ≤ cs.length) && decide (cs.length ≤ 2) &&
    decide (1 ≤ digitsVal cs) && decide (digitsVal cs ≤ 31)) ||
  (match cs with
   | [c₀, c₁] => decide (c₀ = ' ') && c₁.isDigit && decide (c₁ ≠ '0')
   | _ => false)

/-- Day value of a `%d` field (ignoring a leading space pad). -/
def dayVal (cs : List Char) : ℕ :=
  digitsVal (cs.filter Char.isDigit)

/-- Models `datetime.strptime(v, '%Y-%m-%d')` succeeding, the check done by
`DailySummary.validate_date_format`. -/
def validateDateFormat (s : String) : Bool :=
  match splitDashes s.data with
  | [y, m, d] =>
      yearFieldOK y && monthFieldOK m && dayFieldOK d &&
      decide (1 ≤ digitsVal y) &&
      decide (dayVal d ≤ daysInMonth (digitsVal y) (digitsVal m))
  | _ => false

/-- Modelled from the spec: a string in strict `YYYY-MM-DD` format denoting
a real calendar date — four digit year (at least 1), two digit month in
`[1, 12]`, two digit day valid for that month. -/
def specStrictISODate (s : String) : Bool :=
  match splitDashes s.data with
  | [y, m, d] =>
      decide (y.length = 4) && y.all Char.isDigit &&
      decide (m.length = 2) && m.all Char.isDigit &&
      decide (d.length = 2) && d.all Char.isDigit &&
      decide (1 ≤ digitsVal y) &&
      decide (1 ≤ digitsVal m) && decide (digitsVal m ≤ 12) &&
      decide (1 ≤ dayVal d) &&
      decide (dayVal d ≤ daysInMonth (digitsVal y) (digitsVal m))
  | _ => false

/-! ## Summarizer (from `AnalyticsService.compute_daily_summary`) -/

/-- Python truthiness filter of the source's HRV list comprehension
`[p.heartRateVariability for p in physiological_data if
p.heartRateVariability]`: keeps a value that is neither `None` nor `0`. -/
def truthyHRV (p : PhysiologicalData) : Option ℚ :=
  match p.heartRateVariability with
  | none => none
  | some v => if v = 0 then none else some v

/-- The completeness block of `compute_daily_summary`: each flag records
whether its source record was supplied, the physiological flag additionally
requiring a non-empty list; the workout flag is always `False`. -/
def completenessOf (sleep : Option SleepData) (recovery : Option RecoveryData)
    (cycle : Option CycleData) (physiological : Option (List PhysiologicalData)) :
    DataCompleteness :=
  { hasSleep := sleep.isSome
    hasRecovery := recovery.isSome
    hasWorkout := false
    hasCycle := cycle.isSome
    hasPhysiological :=
      match physiological with
      | some l => decide (0 < l.length)
      | none => false }

/-- The average-HRV block of `compute_daily_summary`: over a truthy
(supplied and non-empty) list, the mean of the truthy HRV values when any
exist, absent otherwise. -/
def averageHRVof (physiological : Option (List PhysiologicalData)) : Option ℚ :=
  match physiological with
  | some l =>
      if 0 < l.length then
        let hrvValues := l.filterMap truthyHRV
        if 0 < hrvValues.length then
          some (hrvValues.sum / (hrvValues.length : ℚ))
        else none
      else none
  | none => none

/-- The average-respiratory-rate block of `compute_daily_summary`: over a
truthy list, the mean of the (required) per-sample respiratory rates. -/
def averageRespOf (physiological : Option (List PhysiologicalData)) : Option ℚ :=
  match physiological with
  | some l =>
      if 0 < l.length then
        let respValues := l.map PhysiologicalData.respiratoryRate
        if 0 < respValues.length then
          some (respValues.sum / (respValues.length : ℚ))
        else none
      else none
  | none => none

/-- Spec-side average HRV, written from the spec's words: the arithmetic
mean of `heartRateVariability` over exactly the supplied samples with a
non-null HRV value; absent when the list is absent, empty, or no sample
has an HRV value. -/
def specAvgHRV (physiological : Option (List PhysiologicalData)) : Option ℚ :=
  match physiological with
  | none => none
  | some l =>
      let vs := l.filterMap PhysiologicalData.heartRateVariability
      if vs = [] then none else some (vs.sum / (vs.length : ℚ))

/-- The `DailySummary` value built by `compute_daily_summary` before
pydantic validation.  `currentTime` stands for `int(time.time())`. -/
def rawSummary (userId date : String) (sleep : Option SleepData)
    (recovery : Option RecoveryData) (cycle : Option CycleData)
    (physiological : Option (List PhysiologicalData)) (currentTime : ℤ) :
    DailySummary :=
  { userId := userId
    recordId := "summary#" ++ date
    date := date
    recoveryScore := recovery.map RecoveryData.recoveryScore
    sleepQualityScore :=
      sleep.map (fun sd => ((calculateSleepQualityScore sd : ℤ) : ℚ))
    totalStrain := cycle.map CycleData.strain
    sleepDuration := sleep.map (fun sd => sd.duration / (1000 * 60 * 60))
    averageHRV := averageHRVof physiological
    restingHeartRate := recovery.map RecoveryData.restingHeartRate
    respiratoryRate := averageRespOf physiological
    dataCompleteness := completenessOf sleep recovery cycle physiological
    computedAt := currentTime
    ttl := currentTime + 30 * 24 * 60 * 60 }

/-- Pydantic validation of a `DailySummary` at construction: the date
format validator together with every declared `Field` range. -/
def summaryFieldsOK (s : DailySummary) : Bool :=
  validateDateFormat s.date &&
  optAllB s.recoveryScore (fun v => decide (0 ≤ v) && decide (v ≤ 100)) &&
  optAllB s.sleepQualityScore (fun v => decide (0 ≤ v) && decide (v ≤ 100)) &&
  optAllB s.totalStrain (fun v => decide (0 ≤ v) && decide (v ≤ 21)) &&
  optAllB s.sleepDuration (fun v => decide (0 ≤ v)) &&
  optAllB s.averageHRV (fun v => decide (0 < v)) &&
  optAllB s.restingHeartRate (fun v => decide (0 < v)) &&
  optAllB s.respiratoryRate (fun v => decide (0 < v))

/-- Pydantic `ValidationError` raised when constructing a record whose
fields violate their declared constraints. -/
inductive ValidationErr where
  | validationError
deriving DecidableEq

/-- The summarizer `compute_daily_summary`: builds the summary value and
constructs the `DailySummary` pydantic model, which validates it. -/
def computeDailySummary (userId date : String) (sleep : Option SleepData)
    (recovery : Option RecoveryData) (cycle : Option CycleData)
    (physiological : Option (List PhysiologicalData)) (currentTime : ℤ) :
    Except ValidationErr DailySummary :=
  let s := rawSummary userId date sleep recovery cycle physiological currentTime
  if summaryFieldsOK s then Except.ok s else Except.error ValidationErr.validationError

/-- True when an `Except` value carries a result (the call did not raise). -/
def exceptOk {ε α : Type} (e : Except ε α) : Bool :=
  match e with
  | Except.ok _ => true
  | Except.error _ => false

/-! ## Store collaborator (from `store_daily_summary`, `get_daily_summaries`,
`_item_to_summary`) -/

/-- A DynamoDB attribute value as used by the service: string, float,
int, boolean, or nested map. -/
inductive AttrValue where
  | str (v : String)
  | num (v : ℚ)
  | int (v : ℤ)
  | boolV (v : Bool)
  | map (m : List (String × AttrValue))

/-- Python `int(x)`: truncation toward zero. -/
def intTruncate (x : ℚ) : ℤ :=
  if 0 ≤ x then ⌊x⌋ else ⌈x⌉

/-- The source's two-decimal pattern `int(x * 100) / 100`. -/
def trunc2 (x : ℚ) : ℚ :=
  (intTruncate (x * 100) : ℚ) / 100

/-- One optional numeric entry of the storage item: omitted when the field
is absent, truncated to two decimals when present. -/
def optEntry (key : String) (v : Option ℚ) : List (String × AttrValue) :=
  match v with
  | none => []
  | some x => [(key, AttrValue.num (trunc2 x))]

/-- The item dict that `store_daily_summary` builds, in assignment order:
the five mandatory fields, the seven optional metrics (each present only
when the summary field is), and the completeness map. -/
def buildItem (s : DailySummary) : List (String × AttrValue) :=
  [("userId", AttrValue.str s.userId),
   ("recordId", AttrValue.str s.recordId),
   ("date", AttrValue.str s.date),
   ("computedAt", AttrValue.int s.computedAt),
   ("ttl", AttrValue.int s.ttl)] ++
  optEntry "recoveryScore" s.recoveryScore ++
  optEntry "sleepQualityScore" s.sleepQualityScore ++
  optEntry "totalStrain" s.totalStrain ++
  optEntry "sleepDuration" s.sleepDuration ++
  optEntry "averageHRV" s.averageHRV ++
  optEntry "restingHeartRate" s.restingHeartRate ++
  optEntry "respiratoryRate" s.respiratoryRate ++
  [("dataCompleteness", AttrValue.map
    [("hasSleep", AttrValue.boolV s.dataCompleteness.hasSleep),
     ("hasRecovery", AttrValue.boolV s.dataCompleteness.hasRecovery),
     ("hasWorkout", AttrValue.boolV s.dataCompleteness.hasWorkout),
     ("hasCycle", AttrValue.boolV s.dataCompleteness.hasCycle),
     ("hasPhysiological", AttrValue.boolV s.dataCompleteness.hasPhysiological)])]

/-- Key lookup in an item (the keys built by the service are distinct, so
first-match lookup models dict access). -/
def getKey (l : List (String × AttrValue)) (key : String) : Option AttrValue :=
  match l with
  | [] => none
  | (k, v) :: rest => if k = key then some v else getKey rest key

/-- The error the service raises when invoked without a configured store
handle; the source raises `ValueError("DynamoDB client not configured")`,
which the spec's taxonomy names `ConfigurationError`. -/
inductive ServiceError where
  | configurationError
deriving DecidableEq

/-- The `put_item` side of a configured DynamoDB client: takes the item and
reports success (`true`) or a caught backend exception (`false`). -/
def PutClient : Type := List (String × AttrValue) → Bool

/-- The `query` side of a configured DynamoDB client: takes the partition
key, the `BETWEEN` range bounds on `recordId`, and the limit; returns
`none` for a caught backend exception and the item list otherwise.
(`ScanIndexForward=False`, most recent first, is part of the client's
behaviour.) -/
def QueryClient : Type := String → String → String → ℕ → Option (List (List (String × AttrValue)))

/-- `store_daily_summary`: raises when no client is configured, otherwise
builds the item, issues the put, and reports success as a boolean. -/
def storeDailySummary (client : Option PutClient) (s : DailySummary) :
    Except ServiceError Bool :=
  match client with
  | none => Except.error ServiceError.configurationError
  | some put => Except.ok (put (buildItem s))

/-- String content of an attribute, when it is a string. -/
def attrAsStr (v : AttrValue) : Option String :=
  match v with
  | AttrValue.str s => some s
  | _ => none

/-- Integer content of an attribute, when it is an int. -/
def attrAsInt (v : AttrValue) : Option ℤ :=
  match v with
  | AttrValue.int n => some n
  | _ => none

/-- Numeric content of an attribute (pydantic float fields accept ints). -/
def attrAsNum (v : AttrValue) : Option ℚ :=
  match v with
  | AttrValue.num q => some q
  | AttrValue.int n => some (n : ℚ)
  | _ => none

/-- An optional numeric summary field read back with `item.get(key)`:
absent keys give an absent field, present keys must be numeric. -/
def readOptField (item : List (String × AttrValue)) (key : String) :
    Option (Option ℚ) :=
  match getKey item key with
  | none => some none
  | some v => (attrAsNum v).map some

/-- One completeness flag read with `.get(key, False)` from the stored
completeness map; a present non-boolean value fails the conversion. -/
def readFlag (m : List (String × AttrValue)) (key : String) : Option Bool :=
  match getKey m key with
  | none => some false
  | some (AttrValue.boolV b) => some b
  | some _ => none

/-- Completeness flags of `_item_to_summary`: `item.get('dataCompleteness',
{})` followed by `.get(flag, False)` for each flag; a present non-map value
fails the conversion. -/
def itemCompleteness (item : List (String × AttrValue)) : Option DataCompleteness := do
  let cm ←
    match getKey item "dataCompleteness" with
    | some (AttrValue.map m) => some m
    | none => some []
    | some _ => none
  let hs ← readFlag cm "hasSleep"
  let hr ← readFlag cm "hasRecovery"
  let hw ← readFlag cm "hasWorkout"
  let hc ← readFlag cm "hasCycle"
  let hp ← readFlag cm "hasPhysiological"
  some { hasSleep := hs, hasRecovery := hr, hasWorkout := hw,
         hasCycle := hc, hasPhysiological := hp }

/-- Mandatory fields of `_item_to_summary`: `item[key]` access, a missing
key or wrong type raising (caught by the caller). -/
def itemMeta (item : List (String × AttrValue)) :
    Option (String × String × String × ℤ × ℤ) := do
  let u ← (getKey item "userId").bind attrAsStr
  let rid ← (getKey item "recordId").bind attrAsStr
  let d ← (getKey item "date").bind attrAsStr
  let ca ← (getKey item "computedAt").bind attrAsInt
  let tt ← (getKey item "ttl").bind attrAsInt
  some (u, rid, d, ca, tt)

/-- Optional core metrics of `_item_to_summary`, via `item.get`. -/
def itemCoreMetrics (item : List (String × AttrValue)) :
    Option (Option ℚ × Option ℚ × Option ℚ × Option ℚ) := do
  let rs ← readOptField item "recoveryScore"
  let sq ← readOptField item "sleepQualityScore"
  let ts ← readOptField item "totalStrain"
  let sdu ← readOptField item "sleepDuration"
  some (rs, sq, ts, sdu)

/-- Optional physiological metrics of `_item_to_summary`, via `item.get`. -/
def itemPhysioMetrics (item : List (String × AttrValue)) :
    Option (Option ℚ × Option ℚ × Option ℚ) := do
  let ah ← readOptField item "averageHRV"
  let rh ← readOptField item "restingHeartRate"
  let rr ← readOptField item "respiratoryRate"
  some (ah, rh, rr)

/-- `_item_to_summary`: rebuilds a `DailySummary` from a stored item,
returning `none` when any extraction or the pydantic validation fails
(the source catches the exception and returns `None`). -/
def itemToSummary (item : List (String × AttrValue)) : Option DailySummary := do
  let compl ← itemCompleteness item
  let meta ← itemMeta item
  let core ← itemCoreMetrics item
  let phys ← itemPhysioMetrics item
  let s : DailySummary :=
    { userId := meta.1, recordId := meta.2.1, date := meta.2.2.1,
      recoveryScore := core.1, sleepQualityScore := core.2.1,
      totalStrain := core.2.2.1, sleepDuration := core.2.2.2,
      averageHRV := phys.1, restingHeartRate := phys.2.1,
      respiratoryRate := phys.2.2, dataCompleteness := compl,
      computedAt := meta.2.2.2.1, ttl := meta.2.2.2.2 }
  if summaryFieldsOK s then some s else none

/-- `get_daily_summaries`: raises when no client is configured, otherwise
queries `recordId BETWEEN "summary#"+start AND "summary#"+end`, converts
each returned item, silently skipping failed conversions, and degrades a
caught backend exception to an empty list. -/
def getDailySummaries (client : Option QueryClient) (userId : String)
    (startDate endDate : String) (limit : ℕ) :
    Except ServiceError (List DailySummary) :=
  match client with
  | none => Except.error ServiceError.configurationError
  | some query =>
      match query userId ("summary#" ++ startDate) ("summary#" ++ endDate) limit with
      | none => Except.ok []
      | some items => Except.ok (items.filterMap itemToSummary)

/-! ## Concrete records (test-fixture values, used by witnesses) -/

/-- Concrete valid sleep record: 8 hours, 90 percent quality duration, two
disturbances (the fixture of the repository's tests). -/
def demoSleep : SleepData :=
  { userId := "test-user-123", recordId := "sleep#1", dataType := "sleep",
    sleepId := "whoop-sleep-123", startTime := 0, endTime := 28800000,
    duration := 28800000, qualityDuration := 25920000, latency := 300000,
    disturbanceCount := 2,
    sleepStages := { light := 12960000, deep := 5760000, rem := 7200000,
                     awake := 2880000 },
    sleepNeeded := { baseline := 28800000, debt := 0, strain := 0,
                     total := 28800000 },
    respiratoryRate := 15, heartRate := 55, hrv := 65, ttl := 0, createdAt := 0 }

/-- Concrete valid recovery record (test-fixture values). -/
def demoRecovery : RecoveryData :=
  { userId := "test-user-123", recordId := "recovery#1", dataType := "recovery",
    cycleId := "cycle-123", recoveryScore := 75, hrv := 65,
    restingHeartRate := 55, hrvRmssd := 45, spo2 := some 98,
    skinTemp := some 36, ttl := 0, createdAt := 0 }

/-- Concrete valid cycle record (test-fixture values). -/
def demoCycle : CycleData :=
  { userId := "test-user-123", recordId := "cycle#1", dataType := "cycle",
    cycleId := "cycle-123", startTime := 0, endTime := 86400000,
    days := ["2024-02-06"], strain := 12, kilojoules := 8500,
    averageHeartRate := 70, maxHeartRate := 150, ttl := 0, createdAt := 0 }

/-- Concrete valid physiological sample with the given HRV value. -/
def demoSample (hrvValue : ℚ) : PhysiologicalData :=
  { userId := "test-user-123", recordId := "physiological#1",
    dataType := "physiological", timestamp := 0, heartRate := 60,
    heartRateVariability := some hrvValue, respiratoryRate := 15,
    skinTemp := 36, spo2 := some 98, ttl := 0, createdAt := 0 }

/-- Five samples whose HRV values are 65, 67, 69, 71, 73 (the fixture of
the repository's tests). -/
def demoSamples : List PhysiologicalData :=
  [demoSample 65, demoSample 67, demoSample 69, demoSample 71, demoSample 73]

/-- A valid physiological sample with no HRV value. -/
def noHRVSample : PhysiologicalData :=
  { userId := "test-user-123", recordId := "physiological#2",
    dataType := "physiological", timestamp := 0, heartRate := 60,
    heartRateVariability := none, respiratoryRate := 15,
    skinTemp := 36, spo2 := none, ttl := 0, createdAt := 0 }

/-- A concrete summary exercising both present and absent optional fields,
for the storage theorems. -/
def demoStoreSummary : DailySummary :=
  { userId := "test-user-123", recordId := "summary#2024-02-06",
    date := "2024-02-06", recoveryScore := some 75,
    sleepQualityScore := some 92, totalStrain := some (2999/1000),
    sleepDuration := none, averageHRV := some 69, restingHeartRate := none,
    respiratoryRate := some 15,
    dataCompleteness := { hasSleep := true, hasRecovery := true,
                          hasWorkout := false, hasCycle := true,
                          hasPhysiological := true },
    computedAt := 1700000000, ttl := 1702592000 }

/-! ## Sanity-check examples -/

example : validateDateFormat "2024-02-06" = true := by decide
example : validateDateFormat "2024-2-6" = true := by decide
example : validateDateFormat "2024-02- 6" = true := by decide
example : validateDateFormat "2024-02-30" = false := by decide
example : validateDateFormat "2024-13-01" = false := by decide
example : validateDateFormat "0000-01-01" = false := by decide
example : validateDateFormat "2024-01-001" = false := by decide
example : validateDateFormat "24-01-01" = false := by decide
example : validateDateFormat "2024-02-29" = true := by decide
example : validateDateFormat "2023-02-29" = false := by decide
example : specStrictISODate "2024-02-06" = true := by decide
example : specStrictISODate "2024-2-6" = false := by decide

example : demoSleep.valid = true := by decide
example : calculateSleepQualityScore demoSleep = 92 := by
  norm_num [calculateSleepQualityScore, durationScore, efficiencyScore,
    sleepEfficiency, disturbanceScore, roundHalfEven, demoSleep]
example : calculateSleepQualityScore
    { demoSleep with duration := 18000000, qualityDuration := 16200000 } = 72 := by
  norm_num [calculateSleepQualityScore, durationScore, efficiencyScore,
    sleepEfficiency, disturbanceScore, roundHalfEven, demoSleep]
example : calculateSleepQualityScore
    { demoSleep with duration := 36000000, qualityDuration := 32400000 } = 82 := by
  norm_num [calculateSleepQualityScore, durationScore, efficiencyScore,
    sleepEfficiency, disturbanceScore, roundHalfEven, demoSleep]

/-! ## Helper lemmas about rounding -/

theorem roundHalfEven_le_add_half (q : ℚ) : (roundHalfEven q : ℚ) ≤ q + 1/2 := by
  unfold roundHalfEven
  have h1 := Int.floor_le q
  split_ifs with ha hb hc <;> push_cast <;> linarith

theorem sub_half_le_roundHalfEven (q : ℚ) : q - 1/2 ≤ (roundHalfEven q : ℚ) := by
  unfold roundHalfEven
  have h1 := Int.lt_floor_add_one q
  split_ifs with ha hb hc <;> push_cast <;> linarith

theorem roundHalfEven_mono {q r : ℚ} (h : q ≤ r) :
    roundHalfEven q ≤ roundHalfEven r := by
  by_contra hlt
  push_neg at hlt
  have hint : roundHalfEven r + 1 ≤ roundHalfEven q := hlt
  have hcast : (roundHalfEven r : ℚ) + 1 ≤ (roundHalfEven q : ℚ) := by
    exact_mod_cast hint
  have b1 := roundHalfEven_le_add_half q
  have b2 := sub_half_le_roundHalfEven r
  have hqr : q = r := by linarith
  rw [hqr] at hcast
  linarith

theorem le_roundHalfEven_of_le {a : ℤ} {q : ℚ} (h : (a : ℚ) ≤ q) :
    a ≤ roundHalfEven q := by
  have h2 : ((a - 1 : ℤ) : ℚ) < (roundHalfEven q : ℚ) := by
    push_cast
    linarith [sub_half_le_roundHalfEven q]
  have h3 : (a - 1 : ℤ) < roundHalfEven q := by exact_mod_cast h2
  omega

theorem roundHalfEven_le_of_le {b : ℤ} {q : ℚ} (h : q ≤ (b : ℚ)) :
    roundHalfEven q ≤ b := by
  have h2 : (roundHalfEven q : ℚ) < ((b + 1 : ℤ) : ℚ) := by
    push_cast
    linarith [roundHalfEven_le_add_half q]
  have h3 : roundHalfEven q < b + 1 := by exact_mod_cast h2
  omega

/-! ## Helper lemmas about the scorer -/

theorem sleepValid_unpack {sd : SleepData} (h : sd.valid = true) :
    0 ≤ sd.duration ∧ 0 ≤ sd.qualityDuration ∧ 0 ≤ sd.disturbanceCount := by
  simp only [SleepData.valid, Bool.and_eq_true, decide_eq_true_eq] at h
  tauto

theorem durationScore_eq_spec (h : ℚ) : durationScore h = specDurationSub h := by
  simp only [durationScore, specDurationSub, specDurationBrackets, firstBracket,
    decide_eq_true_eq]

theorem efficiencyScore_eq_spec {sd : SleepData} (hd : 0 ≤ sd.duration) :
    efficiencyScore sd = specEfficiencySub sd := by
  unfold efficiencyScore sleepEfficiency specEfficiencySub
  rcases lt_or_eq_of_le hd with h0 | h0
  · rw [if_pos h0, if_neg (ne_of_gt h0)]
  · rw [if_neg (by rw [← h0]; exact lt_irrefl 0), if_pos h0.symm]
    norm_num

theorem disturbanceScore_eq_spec (sd : SleepData) :
    disturbanceScore sd = specDisturbanceSub sd.disturbanceCount := by
  unfold disturbanceScore specDisturbanceSub
  congr 1
  ring

theorem durationScore_bounds (h : ℚ) :
    10 ≤ durationScore h ∧ durationScore h ≤ 40 := by
  unfold durationScore
  split_ifs <;> norm_num

theorem efficiencyScore_bounds {sd : SleepData}
    (hq : 0 ≤ sd.qualityDuration) :
    0 ≤ efficiencyScore sd ∧ efficiencyScore sd ≤ 40 := by
  unfold efficiencyScore sleepEfficiency
  constructor
  · apply le_min (by norm_num)
    split_ifs with h0
    · positivity
    · norm_num
  · exact min_le_left _ _

theorem disturbanceScore_bounds {sd : SleepData} (hc : 0 ≤ sd.disturbanceCount) :
    0 ≤ disturbanceScore sd ∧ disturbanceScore sd ≤ 20 := by
  unfold disturbanceScore
  constructor
  · exact le_max_left _ _
  · apply max_le (by norm_num)
    omega

theorem clampRound_bounds (t : ℚ) :
    0 ≤ roundHalfEven (min 100 (max 0 t)) ∧
      roundHalfEven (min 100 (max 0 t)) ≤ 100 := by
  constructor
  · apply le_roundHalfEven_of_le
    have : (0 : ℚ) ≤ max 0 t := le_max_left _ _
    push_cast
    exact le_min (by norm_num) this
  · apply roundHalfEven_le_of_le
    push_cast
    exact min_le_left _ _

/-- C1: for every valid SleepRecord the scorer computes its three
sub-scores exactly as specified: the duration sub-score piecewise on
hours = duration / 3600000 with boundaries belonging to the first matching
bracket in the listed order, the efficiency sub-score
min(40, (quality_duration / duration) * 40) contributing 0 when the
duration is 0, and the disturbance sub-score max(0, 20 - 2 *
disturbanceCount). -/
theorem scorer_subscores_match_spec (sd : SleepData) (hv : sd.valid = true) :
    durationScore (sd.duration / (1000 * 60 * 60)) =
      specDurationSub (sd.duration / 3600000)
    ∧ efficiencyScore sd = specEfficiencySub sd
    ∧ disturbanceScore sd = specDisturbanceSub sd.disturbanceCount := by
  obtain ⟨hd, hq, hc⟩ := sleepValid_unpack hv
  refine ⟨?_, efficiencyScore_eq_spec hd, disturbanceScore_eq_spec sd⟩
  rw [show ((1000 : ℚ) * 60 * 60) = 3600000 by norm_num]
  exact durationScore_eq_spec _

/-- Witness for C1 at the 8-hour demo record. -/
theorem scorer_subscores_match_spec_witness :
    demoSleep.valid = true ∧
    (durationScore (demoSleep.duration / (1000 * 60 * 60)) =
        specDurationSub (demoSleep.duration / 3600000)
      ∧ efficiencyScore demoSleep = specEfficiencySub demoSleep
      ∧ disturbanceScore demoSleep =
          specDisturbanceSub demoSleep.disturbanceCount) :=
  ⟨by decide, scorer_subscores_match_spec demoSleep (by decide)⟩

/-- C2: for every valid SleepRecord the score equals the sum of the three
spec sub-scores clamped to [0, 100] and rounded half-to-even, and is an
integer in [0, 100]. -/
theorem score_is_clamped_rounded_sum (sd : SleepData) (hv : sd.valid = true) :
    calculateSleepQualityScore sd =
      roundHalfEven (min 100 (max 0
        (specDurationSub (sd.duration / 3600000) + specEfficiencySub sd +
          (specDisturbanceSub sd.disturbanceCount : ℚ))))
    ∧ 0 ≤ calculateSleepQualityScore sd
    ∧ calculateSleepQualityScore sd ≤ 100 := by
  obtain ⟨hd, hq, hc⟩ := sleepValid_unpack hv
  unfold calculateSleepQualityScore
  refine ⟨?_, clampRound_bounds _⟩
  rw [efficiencyScore_eq_spec hd, disturbanceScore_eq_spec sd,
    show ((1000 : ℚ) * 60 * 60) = 3600000 by norm_num,
    durationScore_eq_spec]

/-- Witness for C2 at the 8-hour demo record. -/
theorem score_is_clamped_rounded_sum_witness :
    demoSleep.valid = true ∧
    (calculateSleepQualityScore demoSleep =
        roundHalfEven (min 100 (max 0
          (specDurationSub (demoSleep.duration / 3600000) +
            specEfficiencySub demoSleep +
            (specDisturbanceSub demoSleep.disturbanceCount : ℚ))))
      ∧ 0 ≤ calculateSleepQualityScore demoSleep
      ∧ calculateSleepQualityScore demoSleep ≤ 100) :=
  ⟨by decide, score_is_clamped_rounded_sum demoSleep (by decide)⟩

/-- C6: holding everything else fixed, the score is non-increasing in the
disturbance count, and for counts at least 10 it equals the clamped,
rounded sum of the duration and efficiency sub-scores alone. -/
theorem score_monotone_in_disturbances (sd : SleepData) (c₁ c₂ : ℤ)
    (_hv : sd.valid = true) (h0 : 0 ≤ c₁) (h12 : c₁ ≤ c₂) :
    calculateSleepQualityScore { sd with disturbanceCount := c₂ } ≤
      calculateSleepQualityScore { sd with disturbanceCount := c₁ }
    ∧ (10 ≤ c₁ →
        calculateSleepQualityScore { sd with disturbanceCount := c₁ } =
          roundHalfEven (min 100 (max 0
            (durationScore (sd.duration / (1000 * 60 * 60)) +
              efficiencyScore sd)))) := by
  have hds : ∀ c : ℤ,
      durationScore (({ sd with disturbanceCount := c } : SleepData).duration /
        (1000 * 60 * 60)) = durationScore (sd.duration / (1000 * 60 * 60)) := by
    intro c
    rfl
  have hes : ∀ c : ℤ,
      efficiencyScore { sd with disturbanceCount := c } = efficiencyScore sd := by
    intro c
    rfl
  constructor
  · unfold calculateSleepQualityScore
    simp only [hds, hes]
    apply roundHalfEven_mono
    apply min_le_min le_rfl
    apply max_le_max le_rfl
    have hdist : disturbanceScore { sd with disturbanceCount := c₂ } ≤
        disturbanceScore { sd with disturbanceCount := c₁ } := by
      unfold disturbanceScore
      simp only
      omega
    have : ((disturbanceScore { sd with disturbanceCount := c₂ } : ℤ) : ℚ) ≤
        ((disturbanceScore { sd with disturbanceCount := c₁ } : ℤ) : ℚ) := by
      exact_mod_cast hdist
    linarith
  · intro h10
    unfold calculateSleepQualityScore
    simp only [hds, hes]
    have hz : disturbanceScore { sd with disturbanceCount := c₁ } = 0 := by
      unfold disturbanceScore
      simp only
      omega
    rw [hz]
    norm_num

/-- Witness for C6 at the demo record with counts 10 and 12. -/
theorem score_monotone_in_disturbances_witness :
    demoSleep.valid = true ∧ (0 : ℤ) ≤ 10 ∧ (10 : ℤ) ≤ 12 ∧
    (calculateSleepQualityScore { demoSleep with disturbanceCount := 12 } ≤
      calculateSleepQualityScore { demoSleep with disturbanceCount := 10 }
    ∧ (10 ≤ (10 : ℤ) →
        calculateSleepQualityScore { demoSleep with disturbanceCount := 10 } =
          roundHalfEven (min 100 (max 0
            (durationScore (demoSleep.duration / (1000 * 60 * 60)) +
              efficiencyScore demoSleep))))) :=
  ⟨by decide, by decide, by decide,
    score_monotone_in_disturbances demoSleep 10 12 (by decide) (by decide)
      (by decide)⟩

/-! ## Helper lemmas about the summarizer -/

theorem recoveryValid_unpack {r : RecoveryData} (h : r.valid = true) :
    0 ≤ r.recoveryScore ∧ r.recoveryScore ≤ 100 ∧ 0 < r.restingHeartRate := by
  simp only [RecoveryData.valid, Bool.and_eq_true, decide_eq_true_eq] at h
  tauto

theorem cycleValid_unpack {c : CycleData} (h : c.valid = true) :
    0 ≤ c.strain ∧ c.strain ≤ 21 := by
  simp only [CycleData.valid, Bool.and_eq_true, decide_eq_true_eq] at h
  tauto

theorem physValid_unpack {p : PhysiologicalData} (h : p.valid = true) :
    0 < p.respiratoryRate ∧ ∀ v, p.heartRateVariability = some v → 0 < v := by
  simp only [PhysiologicalData.valid, Bool.and_eq_true, decide_eq_true_eq] at h
  obtain ⟨⟨⟨-, h2⟩, h3⟩, -⟩ := h
  refine ⟨h3, ?_⟩
  intro v hv
  unfold optAllB at h2
  rw [hv] at h2
  simpa using h2

theorem score_in_range (sd : SleepData) :
    0 ≤ calculateSleepQualityScore sd ∧ calculateSleepQualityScore sd ≤ 100 := by
  unfold calculateSleepQualityScore
  exact clampRound_bounds _

theorem mean_pos {l : List ℚ} (hne : l ≠ []) (hp : ∀ x ∈ l, 0 < x) :
    0 < l.sum / (l.length : ℚ) := by
  apply div_pos (List.sum_pos l hp hne)
  exact_mod_cast List.length_pos.mpr hne

theorem truthyHRV_mem_pos {l : List PhysiologicalData}
    (hp : ∀ p ∈ l, p.valid = true) :
    ∀ x ∈ l.filterMap truthyHRV, 0 < x := by
  intro x hx
  rw [List.mem_filterMap] at hx
  obtain ⟨p, hpl, hpx⟩ := hx
  unfold truthyHRV at hpx
  rcases hhrv : p.heartRateVariability with _ | v
  · rw [hhrv] at hpx
    exact absurd hpx (by simp)
  · rw [hhrv] at hpx
    dsimp only at hpx
    split_ifs at hpx with h0
    obtain ⟨-, h2⟩ := physValid_unpack (hp p hpl)
    have := h2 v hhrv
    simp only [Option.some.injEq] at hpx
    rw [← hpx]
    exact this

theorem averageHRVof_check {physiological : Option (List PhysiologicalData)}
    (hp : ∀ l ∈ physiological, ∀ p ∈ l, p.valid = true) :
    optAllB (averageHRVof physiological) (fun v => decide (0 < v)) = true := by
  cases physiological with
  | none => rfl
  | some l =>
      simp only [averageHRVof]
      split_ifs with h1 h2
      · simp only [optAllB, decide_eq_true_eq]
        apply mean_pos
        · intro hnil
          rw [hnil] at h2
          exact absurd h2 (by simp)
        · exact truthyHRV_mem_pos (hp l rfl)
      · rfl
      · rfl

theorem averageRespOf_check {physiological : Option (List PhysiologicalData)}
    (hp : ∀ l ∈ physiological, ∀ p ∈ l, p.valid = true) :
    optAllB (averageRespOf physiological) (fun v => decide (0 < v)) = true := by
  cases physiological with
  | none => rfl
  | some l =>
      simp only [averageRespOf]
      split_ifs with h1 h2
      · simp only [optAllB, decide_eq_true_eq]
        apply mean_pos
        · intro hnil
          rw [hnil] at h2
          exact absurd h2 (by simp)
        · intro x hx
          rw [List.mem_map] at hx
          obtain ⟨p, hpl, hpx⟩ := hx
          rw [← hpx]
          exact (physValid_unpack (hp l rfl p hpl)).1
      · rfl
      · rfl

theorem summaryFieldsOK_raw (userId date : String) (sleep : Option SleepData)
    (recovery : Option RecoveryData) (cycle : Option CycleData)
    (physiological : Option (List PhysiologicalData)) (t : ℤ)
    (hs : ∀ sd ∈ sleep, sd.valid = true)
    (hr : ∀ r ∈ recovery, r.valid = true)
    (hc : ∀ c ∈ cycle, c.valid = true)
    (hp : ∀ l ∈ physiological, ∀ p ∈ l, p.valid = true) :
    summaryFieldsOK (rawSummary userId date sleep recovery cycle physiological t) =
      validateDateFormat date := by
  have h1 : optAllB (recovery.map RecoveryData.recoveryScore)
      (fun v => decide (0 ≤ v) && decide (v ≤ 100)) = true := by
    cases recovery with
    | none => rfl
    | some r =>
        obtain ⟨ha, hb, -⟩ := recoveryValid_unpack (hr r rfl)
        simp [optAllB, ha, hb]
  have h2 : optAllB (sleep.map (fun sd => ((calculateSleepQualityScore sd : ℤ) : ℚ)))
      (fun v => decide (0 ≤ v) && decide (v ≤ 100)) = true := by
    cases sleep with
    | none => rfl
    | some sd =>
        obtain ⟨hge, hle⟩ := score_in_range sd
        simp only [Option.map_some', optAllB, Bool.and_eq_true, decide_eq_true_eq]
        constructor
        · exact_mod_cast hge
        · exact_mod_cast hle
  have h3 : optAllB (cycle.map CycleData.strain)
      (fun v => decide (0 ≤ v) && decide (v ≤ 21)) = true := by
    cases cycle with
    | none => rfl
    | some c =>
        obtain ⟨ha, hb⟩ := cycleValid_unpack (hc c rfl)
        simp [optAllB, ha, hb]
  have h4 : optAllB (sleep.map (fun sd => sd.duration / (1000 * 60 * 60)))
      (fun v => decide (0 ≤ v)) = true := by
    cases sleep with
    | none => rfl
    | some sd =>
        obtain ⟨hd, -, -⟩ := sleepValid_unpack (hs sd rfl)
        simp only [Option.map_some', optAllB, decide_eq_true_eq]
        positivity
  have h5 := averageHRVof_check hp
  have h6 : optAllB (recovery.map RecoveryData.restingHeartRate)
      (fun v => decide (0 < v)) = true := by
    cases recovery with
    | none => rfl
    | some r =>
        obtain ⟨-, -, hrhr⟩ := recoveryValid_unpack (hr r rfl)
        simp [optAllB, hrhr]
  have h7 := averageRespOf_check hp
  unfold summaryFieldsOK rawSummary
  simp only [h1, h2, h3, h4, h5, h6, h7, Bool.and_true]

/-! ## Helper lemmas about computeDailySummary -/

theorem ballOptionSome {α : Type} {a : α} {p : α → Prop} (h : p a) :
    ∀ x ∈ some a, p x := by
  intro x hx
  rw [Option.mem_def] at hx
  injection hx with h2
  rwa [← h2]

theorem optAllB_eq_true {o : Option ℚ} {p : ℚ → Bool} :
    optAllB o p = true ↔ ∀ v ∈ o, p v = true := by
  cases o <;> simp [optAllB]

theorem compute_ok_inv {userId date : String} {sleep : Option SleepData}
    {recovery : Option RecoveryData} {cycle : Option CycleData}
    {physiological : Option (List PhysiologicalData)} {t : ℤ} {s : DailySummary}
    (h : computeDailySummary userId date sleep recovery cycle physiological t =
      Except.ok s) :
    s = rawSummary userId date sleep recovery cycle physiological t ∧
      summaryFieldsOK s = true := by
  unfold computeDailySummary at h
  by_cases hb : summaryFieldsOK
      (rawSummary userId date sleep recovery cycle physiological t) = true
  · rw [if_pos hb] at h
    have h2 := Except.ok.inj h
    exact ⟨h2.symm, h2 ▸ hb⟩
  · rw [if_neg hb] at h
    exact absurd h (by simp)

theorem computeDailySummary_eq (userId date : String) (sleep : Option SleepData)
    (recovery : Option RecoveryData) (cycle : Option CycleData)
    (physiological : Option (List PhysiologicalData)) (t : ℤ)
    (hs : ∀ sd ∈ sleep, sd.valid = true)
    (hr : ∀ r ∈ recovery, r.valid = true)
    (hc : ∀ c ∈ cycle, c.valid = true)
    (hp : ∀ l ∈ physiological, ∀ p ∈ l, p.valid = true) :
    computeDailySummary userId date sleep recovery cycle physiological t =
      if validateDateFormat date = true
      then Except.ok (rawSummary userId date sleep recovery cycle physiological t)
      else Except.error ValidationErr.validationError := by
  unfold computeDailySummary
  dsimp only
  rw [summaryFieldsOK_raw userId date sleep recovery cycle physiological t hs hr hc hp]

theorem summaryFieldsOK_parts {s : DailySummary} (h : summaryFieldsOK s = true) :
    validateDateFormat s.date = true
    ∧ optAllB s.recoveryScore (fun v => decide (0 ≤ v) && decide (v ≤ 100)) = true
    ∧ optAllB s.sleepQualityScore (fun v => decide (0 ≤ v) && decide (v ≤ 100)) = true
    ∧ optAllB s.totalStrain (fun v => decide (0 ≤ v) && decide (v ≤ 21)) = true
    ∧ optAllB s.sleepDuration (fun v => decide (0 ≤ v)) = true
    ∧ optAllB s.averageHRV (fun v => decide (0 < v)) = true
    ∧ optAllB s.restingHeartRate (fun v => decide (0 < v)) = true
    ∧ optAllB s.respiratoryRate (fun v => decide (0 < v)) = true := by
  simp only [summaryFieldsOK, Bool.and_eq_true] at h
  tauto

theorem truthy_filter_eq {l : List PhysiologicalData}
    (hp : ∀ p ∈ l, p.valid = true) :
    l.filterMap truthyHRV = l.filterMap PhysiologicalData.heartRateVariability := by
  induction l with
  | nil => rfl
  | cons p rest ih =>
      have hv := hp p (by simp)
      have hrest : ∀ q ∈ rest, q.valid = true := fun q hq => hp q (by simp [hq])
      simp only [List.filterMap_cons]
      rcases hh : p.heartRateVariability with _ | v
      · simp [truthyHRV, hh, ih hrest]
      · have hpos := (physValid_unpack hv).2 v hh
        simp [truthyHRV, hh, ne_of_gt hpos, ih hrest]

theorem averageHRVof_eq_spec {physiological : Option (List PhysiologicalData)}
    (hp : ∀ l ∈ physiological, ∀ p ∈ l, p.valid = true) :
    averageHRVof physiological = specAvgHRV physiological := by
  cases physiological with
  | none => rfl
  | some l =>
      simp only [averageHRVof, specAvgHRV]
      rw [truthy_filter_eq (hp l rfl)]
      rcases l with _ | ⟨p, rest⟩
      · simp
      · simp only [List.length_cons, Nat.zero_lt_succ, if_true]
        by_cases hvs :
            (p :: rest).filterMap PhysiologicalData.heartRateVariability = []
        · simp [hvs]
        · have hlen : 0 <
              ((p :: rest).filterMap PhysiologicalData.heartRateVariability).length :=
            List.length_pos.mpr hvs
          simp [hvs, hlen]

/-- C7 (amended): the summarizer fails with a validation error exactly when
the date string is rejected by the `%Y-%m-%d` parse (four-digit year at
least 1, one- or two-digit month in [1,12], one- or two-digit or
space-padded day valid for that month); on every accepted date with valid
optional inputs it returns a fully constructed summary whose declared field
constraints all hold. -/
theorem compute_fails_iff_bad_date (userId date : String)
    (sleep : Option SleepData) (recovery : Option RecoveryData)
    (cycle : Option CycleData) (physiological : Option (List PhysiologicalData))
    (t : ℤ)
    (hs : ∀ sd ∈ sleep, sd.valid = true)
    (hr : ∀ r ∈ recovery, r.valid = true)
    (hc : ∀ c ∈ cycle, c.valid = true)
    (hp : ∀ l ∈ physiological, ∀ p ∈ l, p.valid = true) :
    exceptOk (computeDailySummary userId date sleep recovery cycle physiological t) =
      validateDateFormat date
    ∧ ∀ s, computeDailySummary userId date sleep recovery cycle physiological t =
        Except.ok s →
        validateDateFormat s.date = true
        ∧ (∀ v ∈ s.recoveryScore, 0 ≤ v ∧ v ≤ 100)
        ∧ (∀ v ∈ s.sleepQualityScore, 0 ≤ v ∧ v ≤ 100)
        ∧ (∀ v ∈ s.totalStrain, 0 ≤ v ∧ v ≤ 21)
        ∧ (∀ v ∈ s.sleepDuration, 0 ≤ v)
        ∧ (∀ v ∈ s.averageHRV, 0 < v)
        ∧ (∀ v ∈ s.restingHeartRate, 0 < v)
        ∧ (∀ v ∈ s.respiratoryRate, 0 < v) := by
  constructor
  · rw [computeDailySummary_eq userId date sleep recovery cycle physiological t
      hs hr hc hp]
    by_cases hd : validateDateFormat date = true
    · rw [if_pos hd, hd]
      rfl
    · rw [if_neg hd]
      simp only [Bool.not_eq_true] at hd
      rw [hd]
      rfl
  · intro s hok
    obtain ⟨-, hfields⟩ := compute_ok_inv hok
    obtain ⟨hdate, f1, f2, f3, f4, f5, f6, f7⟩ := summaryFieldsOK_parts hfields
    refine ⟨hdate, ?_, ?_, ?_, ?_, ?_, ?_, ?_⟩ <;>
      intro v hv
    · have := optAllB_eq_true.mp f1 v hv
      simpa using this
    · have := optAllB_eq_true.mp f2 v hv
      simpa using this
    · have := optAllB_eq_true.mp f3 v hv
      simpa using this
    · have := optAllB_eq_true.mp f4 v hv
      simpa using this
    · have := optAllB_eq_true.mp f5 v hv
      simpa using this
    · have := optAllB_eq_true.mp f6 v hv
      simpa using this
    · have := optAllB_eq_true.mp f7 v hv
      simpa using this

/-- Counterexample to C7 as stated: the date "2024-2-6" is not in strict
YYYY-MM-DD format, yet the summarizer accepts it and returns a summary. -/
theorem compute_fails_iff_bad_date_counterexample :
    exceptOk (computeDailySummary "test-user-123" "2024-2-6"
        none none none none 0) = true
    ∧ specStrictISODate "2024-2-6" = false := by
  exact ⟨by decide, by decide⟩

/-- Witness for C7 at a valid date with valid recovery, cycle and
physiological inputs. -/
theorem compute_fails_iff_bad_date_witness :
    exceptOk (computeDailySummary "test-user-123" "2024-02-06" none
        (some demoRecovery) (some demoCycle) (some demoSamples) 0) =
      validateDateFormat "2024-02-06" :=
  (compute_fails_iff_bad_date "test-user-123" "2024-02-06" none
    (some demoRecovery) (some demoCycle) (some demoSamples) 0
    (by simp) (ballOptionSome (by decide)) (ballOptionSome (by decide))
    (ballOptionSome (by decide))).1

/-- C5: the completeness flags record exactly which inputs were supplied,
with the physiological flag additionally requiring a non-empty list, and
the workout flag always false. -/
theorem completeness_flags_iff (userId date : String) (sleep : Option SleepData)
    (recovery : Option RecoveryData) (cycle : Option CycleData)
    (physiological : Option (List PhysiologicalData)) (t : ℤ) (s : DailySummary)
    (hok : computeDailySummary userId date sleep recovery cycle physiological t =
      Except.ok s) :
    (s.dataCompleteness.hasSleep = true ↔ sleep.isSome = true)
    ∧ (s.dataCompleteness.hasRecovery = true ↔ recovery.isSome = true)
    ∧ (s.dataCompleteness.hasCycle = true ↔ cycle.isSome = true)
    ∧ (s.dataCompleteness.hasPhysiological = true ↔
        ∃ l, physiological = some l ∧ l ≠ [])
    ∧ s.dataCompleteness.hasWorkout = false := by
  obtain ⟨rfl, -⟩ := compute_ok_inv hok
  refine ⟨Iff.rfl, Iff.rfl, Iff.rfl, ?_, rfl⟩
  simp only [rawSummary, completenessOf]
  cases physiological with
  | none => simp
  | some l => simp [List.length_pos]

theorem demoAllOk :
    computeDailySummary "test-user-123" "2024-02-06" none none none
        (some demoSamples) 0 =
      Except.ok (rawSummary "test-user-123" "2024-02-06" none none none
        (some demoSamples) 0) := by
  rw [computeDailySummary_eq "test-user-123" "2024-02-06" none none none
    (some demoSamples) 0 (by simp) (by simp) (by simp)
    (ballOptionSome (by decide))]
  rw [if_pos (by decide)]

/-- Witness for C5: a call with only the physiological list supplied. -/
theorem completeness_flags_iff_witness :
    ((rawSummary "test-user-123" "2024-02-06" none none none
        (some demoSamples) 0).dataCompleteness.hasSleep = true ↔
      (none : Option SleepData).isSome = true)
    ∧ ((rawSummary "test-user-123" "2024-02-06" none none none
        (some demoSamples) 0).dataCompleteness.hasRecovery = true ↔
      (none : Option RecoveryData).isSome = true)
    ∧ ((rawSummary "test-user-123" "2024-02-06" none none none
        (some demoSamples) 0).dataCompleteness.hasCycle = true ↔
      (none : Option CycleData).isSome = true)
    ∧ ((rawSummary "test-user-123" "2024-02-06" none none none
        (some demoSamples) 0).dataCompleteness.hasPhysiological = true ↔
      ∃ l, (some demoSamples : Option (List PhysiologicalData)) = some l ∧ l ≠ [])
    ∧ (rawSummary "test-user-123" "2024-02-06" none none none
        (some demoSamples) 0).dataCompleteness.hasWorkout = false :=
  completeness_flags_iff "test-user-123" "2024-02-06" none none none
    (some demoSamples) 0 _ demoAllOk

/-- C4: the average HRV of the summary equals the spec-side mean over
exactly the supplied samples with a non-null HRV, absent when the list is
absent, empty, or carries no HRV value. -/
theorem averageHRV_mean_of_nonnull (userId date : String)
    (sleep : Option SleepData) (recovery : Option RecoveryData)
    (cycle : Option CycleData) (physiological : Option (List PhysiologicalData))
    (t : ℤ) (s : DailySummary)
    (hp : ∀ l ∈ physiological, ∀ p ∈ l, p.valid = true)
    (hok : computeDailySummary userId date sleep recovery cycle physiological t =
      Except.ok s) :
    s.averageHRV = specAvgHRV physiological := by
  obtain ⟨rfl, -⟩ := compute_ok_inv hok
  show averageHRVof physiological = specAvgHRV physiological
  exact averageHRVof_eq_spec hp

/-- Witness for C4: over samples with HRV values 65, 67, 69, 71, 73 the
average is exactly 69. -/
theorem averageHRV_mean_of_nonnull_witness :
    (rawSummary "test-user-123" "2024-02-06" none none none
        (some demoSamples) 0).averageHRV = specAvgHRV (some demoSamples)
    ∧ specAvgHRV (some demoSamples) = some 69 := by
  constructor
  · exact averageHRV_mean_of_nonnull "test-user-123" "2024-02-06" none none none
      (some demoSamples) 0 _ (ballOptionSome (by decide)) demoAllOk
  · norm_num [specAvgHRV, demoSamples, demoSample, List.filterMap]
    intro h
    exact absurd h (by decide)

/-- Counterexample to C3 as stated: a supplied, non-empty physiological
list whose single sample carries no HRV value yields a summary with
`averageHRV` absent even though the list was supplied and non-empty (and
`respiratoryRate` is present). -/
theorem optional_fields_presence_counterexample :
    computeDailySummary "test-user-123" "2024-02-06" none none none
        (some [noHRVSample]) 0 =
      Except.ok (rawSummary "test-user-123" "2024-02-06" none none none
        (some [noHRVSample]) 0)
    ∧ (rawSummary "test-user-123" "2024-02-06" none none none
        (some [noHRVSample]) 0).averageHRV = none
    ∧ (rawSummary "test-user-123" "2024-02-06" none none none
        (some [noHRVSample]) 0).respiratoryRate.isSome = true
    ∧ ([noHRVSample] : List PhysiologicalData) ≠ [] := by
  refine ⟨?_, ?_, ?_, by simp⟩
  · rw [computeDailySummary_eq "test-user-123" "2024-02-06" none none none
      (some [noHRVSample]) 0 (by simp) (by simp) (by simp)
      (ballOptionSome (by decide))]
    rw [if_pos (by decide)]
  · show averageHRVof (some [noHRVSample]) = none
    simp [averageHRVof, truthyHRV, noHRVSample]
  · show (averageRespOf (some [noHRVSample])).isSome = true
    simp [averageRespOf]

/-- C3 (amended): every optional summary field is present iff its source
was supplied and non-empty, except that `averageHRV` additionally requires
at least one supplied sample to carry a non-null HRV value. -/
theorem optional_fields_presence (userId date : String) (sleep : Option SleepData)
    (recovery : Option RecoveryData) (cycle : Option CycleData)
    (physiological : Option (List PhysiologicalData)) (t : ℤ) (s : DailySummary)
    (hp : ∀ l ∈ physiological, ∀ p ∈ l, p.valid = true)
    (hok : computeDailySummary userId date sleep recovery cycle physiological t =
      Except.ok s) :
    (s.recoveryScore.isSome = true ↔ recovery.isSome = true)
    ∧ (s.restingHeartRate.isSome = true ↔ recovery.isSome = true)
    ∧ (s.totalStrain.isSome = true ↔ cycle.isSome = true)
    ∧ (s.sleepQualityScore.isSome = true ↔ sleep.isSome = true)
    ∧ (s.sleepDuration.isSome = true ↔ sleep.isSome = true)
    ∧ (s.respiratoryRate.isSome = true ↔ ∃ l, physiological = some l ∧ l ≠ [])
    ∧ (s.averageHRV.isSome = true ↔
        ∃ l, physiological = some l ∧ ∃ p ∈ l, p.heartRateVariability ≠ none) := by
  obtain ⟨rfl, -⟩ := compute_ok_inv hok
  refine ⟨?_, ?_, ?_, ?_, ?_, ?_, ?_⟩
  · show (recovery.map RecoveryData.recoveryScore).isSome = true ↔ _
    cases recovery <;> simp
  · show (recovery.map RecoveryData.restingHeartRate).isSome = true ↔ _
    cases recovery <;> simp
  · show (cycle.map CycleData.strain).isSome = true ↔ _
    cases cycle <;> simp
  · show (sleep.map fun sd =>
        ((calculateSleepQualityScore sd : ℤ) : ℚ)).isSome = true ↔ _
    cases sleep <;> simp
  · show (sleep.map fun sd => sd.duration / (1000 * 60 * 60)).isSome = true ↔ _
    cases sleep <;> simp
  · show (averageRespOf physiological).isSome = true ↔ _
    cases physiological with
    | none => simp [averageRespOf]
    | some l =>
        rcases l with _ | ⟨p, rest⟩
        · simp [averageRespOf]
        · simp [averageRespOf]
  · show (averageHRVof physiological).isSome = true ↔ _
    rw [averageHRVof_eq_spec hp]
    cases physiological with
    | none => simp [specAvgHRV]
    | some l =>
        simp only [specAvgHRV]
        by_cases hvs : l.filterMap PhysiologicalData.heartRateVariability = []
        · rw [if_pos hvs]
          rw [List.filterMap_eq_nil_iff] at hvs
          simp only [Option.isSome_none, Bool.false_eq_true, false_iff]
          rintro ⟨l2, hl, p, hpl, hne⟩
          injection hl with h2
          subst h2
          exact hne (hvs p hpl)
        · rw [if_neg hvs]
          simp only [Option.isSome_some, true_iff]
          obtain ⟨b, hb⟩ := List.exists_mem_of_ne_nil _ hvs
          rw [List.mem_filterMap] at hb
          obtain ⟨p, hpl, hpb⟩ := hb
          exact ⟨l, rfl, p, hpl, by simp [hpb]⟩

/-- Witness for C3 (amended) at the demo sample list. -/
theorem optional_fields_presence_witness :
    ((rawSummary "test-user-123" "2024-02-06" none none none
        (some demoSamples) 0).recoveryScore.isSome = true ↔
      (none : Option RecoveryData).isSome = true)
    ∧ ((rawSummary "test-user-123" "2024-02-06" none none none
        (some demoSamples) 0).restingHeartRate.isSome = true ↔
      (none : Option RecoveryData).isSome = true)
    ∧ ((rawSummary "test-user-123" "2024-02-06" none none none
        (some demoSamples) 0).totalStrain.isSome = true ↔
      (none : Option CycleData).isSome = true)
    ∧ ((rawSummary "test-user-123" "2024-02-06" none none none
        (some demoSamples) 0).sleepQualityScore.isSome = true ↔
      (none : Option SleepData).isSome = true)
    ∧ ((rawSummary "test-user-123" "2024-02-06" none none none
        (some demoSamples) 0).sleepDuration.isSome = true ↔
      (none : Option SleepData).isSome = true)
    ∧ ((rawSummary "test-user-123" "2024-02-06" none none none
        (some demoSamples) 0).respiratoryRate.isSome = true ↔
      ∃ l, (some demoSamples : Option (List PhysiologicalData)) = some l ∧ l ≠ [])
    ∧ ((rawSummary "test-user-123" "2024-02-06" none none none
        (some demoSamples) 0).averageHRV.isSome = true ↔
      ∃ l, (some demoSamples : Option (List PhysiologicalData)) = some l ∧
        ∃ p ∈ l, p.heartRateVariability ≠ none) :=
  optional_fields_presence "test-user-123" "2024-02-06" none none none
    (some demoSamples) 0 _ (ballOptionSome (by decide)) demoAllOk

/-! ## Helper lemmas about the storage item -/

theorem getKey_append (l₁ l₂ : List (String × AttrValue)) (k : String) :
    getKey (l₁ ++ l₂) k = (getKey l₁ k).orElse (fun _ => getKey l₂ k) := by
  induction l₁ with
  | nil => rfl
  | cons e rest ih =>
      rcases e with ⟨k0, v0⟩
      simp only [List.cons_append, getKey, List.append_eq]
      by_cases h : k0 = k
      · rw [if_pos h, if_pos h]
        rfl
      · rw [if_neg h, if_neg h, ih]

theorem getKey_optEntry_self (k : String) (v : Option ℚ) :
    getKey (optEntry k v) k = v.map (fun x => AttrValue.num (trunc2 x)) := by
  cases v with
  | none => rfl
  | some x => simp [optEntry, getKey]

theorem getKey_optEntry_ne {k k2 : String} (h : k2 ≠ k) (v : Option ℚ) :
    getKey (optEntry k2 v) k = none := by
  cases v with
  | none => rfl
  | some x => simp [optEntry, getKey, h]

/-- C8: both the put and the range query raise the configuration error when
no store client is configured, before any storage operation is attempted. -/
theorem unconfigured_store_raises :
    (∀ s : DailySummary, storeDailySummary none s =
      Except.error ServiceError.configurationError)
    ∧ ∀ (userId startDate endDate : String) (limit : ℕ),
        getDailySummaries none userId startDate endDate limit =
          Except.error ServiceError.configurationError :=
  ⟨fun _ => rfl, fun _ _ _ _ => rfl⟩

/-- C9: each present optional numeric field is stored truncated to two
decimals toward zero via the int(x*100)/100 pattern (a truncation, losing
less than 1/100 and never rounding up), while the five mandatory fields are
stored unmodified. -/
theorem stored_fields_truncated (s : DailySummary) :
    getKey (buildItem s) "recoveryScore" =
      s.recoveryScore.map (fun x => AttrValue.num (trunc2 x))
    ∧ getKey (buildItem s) "sleepQualityScore" =
      s.sleepQualityScore.map (fun x => AttrValue.num (trunc2 x))
    ∧ getKey (buildItem s) "totalStrain" =
      s.totalStrain.map (fun x => AttrValue.num (trunc2 x))
    ∧ getKey (buildItem s) "sleepDuration" =
      s.sleepDuration.map (fun x => AttrValue.num (trunc2 x))
    ∧ getKey (buildItem s) "averageHRV" =
      s.averageHRV.map (fun x => AttrValue.num (trunc2 x))
    ∧ getKey (buildItem s) "restingHeartRate" =
      s.restingHeartRate.map (fun x => AttrValue.num (trunc2 x))
    ∧ getKey (buildItem s) "respiratoryRate" =
      s.respiratoryRate.map (fun x => AttrValue.num (trunc2 x))
    ∧ getKey (buildItem s) "userId" = some (AttrValue.str s.userId)
    ∧ getKey (buildItem s) "recordId" = some (AttrValue.str s.recordId)
    ∧ getKey (buildItem s) "date" = some (AttrValue.str s.date)
    ∧ getKey (buildItem s) "computedAt" = some (AttrValue.int s.computedAt)
    ∧ getKey (buildItem s) "ttl" = some (AttrValue.int s.ttl)
    ∧ ∀ x : ℚ, 0 ≤ x →
        trunc2 x ≤ x ∧ x - 1/100 < trunc2 x ∧
          ∃ n : ℤ, trunc2 x = (n : ℚ) / 100 := by
  refine ⟨?_, ?_, ?_, ?_, ?_, ?_, ?_, ?_, ?_, ?_, ?_, ?_, ?_⟩
  · simp [buildItem, getKey_append, getKey_optEntry_self, getKey_optEntry_ne, getKey]
  · simp [buildItem, getKey_append, getKey_optEntry_self, getKey_optEntry_ne, getKey]
  · simp [buildItem, getKey_append, getKey_optEntry_self, getKey_optEntry_ne, getKey]
  · simp [buildItem, getKey_append, getKey_optEntry_self, getKey_optEntry_ne, getKey]
  · simp [buildItem, getKey_append, getKey_optEntry_self, getKey_optEntry_ne, getKey]
  · simp [buildItem, getKey_append, getKey_optEntry_self, getKey_optEntry_ne, getKey]
  · simp [buildItem, getKey_append, getKey_optEntry_self, getKey_optEntry_ne, getKey]
  · simp [buildItem, getKey_append, getKey_optEntry_self, getKey_optEntry_ne, getKey]
  · simp [buildItem, getKey_append, getKey_optEntry_self, getKey_optEntry_ne, getKey]
  · simp [buildItem, getKey_append, getKey_optEntry_self, getKey_optEntry_ne, getKey]
  · simp [buildItem, getKey_append, getKey_optEntry_self, getKey_optEntry_ne, getKey]
  · simp [buildItem, getKey_append, getKey_optEntry_self, getKey_optEntry_ne, getKey]
  · intro x hx
    unfold trunc2 intTruncate
    rw [if_pos (by positivity)]
    have h1 : (⌊x * 100⌋ : ℚ) ≤ x * 100 := Int.floor_le _
    have h2 : x * 100 < ⌊x * 100⌋ + 1 := Int.lt_floor_add_one _
    exact ⟨by linarith, by linarith, ⟨⌊x * 100⌋, rfl⟩⟩

/-- Witness for C9: the truncation bound discharged at 2.999 on the demo
summary. -/
theorem stored_fields_truncated_witness :
    getKey (buildItem demoStoreSummary) "recoveryScore" =
      demoStoreSummary.recoveryScore.map (fun x => AttrValue.num (trunc2 x))
    ∧ 0 ≤ (2999/1000 : ℚ)
    ∧ trunc2 (2999/1000) ≤ (2999/1000 : ℚ) := by
  refine ⟨(stored_fields_truncated demoStoreSummary).1, by norm_num, ?_⟩
  exact ((stored_fields_truncated
    demoStoreSummary).2.2.2.2.2.2.2.2.2.2.2.2 (2999/1000) (by norm_num)).1

/-- C10: the stored item carries an attribute for an optional metric
exactly when the summary field is present (absent fields are omitted, not
null), and always carries the five mandatory fields and all five
completeness flags. -/
theorem item_attribute_presence (s : DailySummary) :
    ((getKey (buildItem s) "recoveryScore").isSome = s.recoveryScore.isSome)
    ∧ ((getKey (buildItem s) "sleepQualityScore").isSome =
        s.sleepQualityScore.isSome)
    ∧ ((getKey (buildItem s) "totalStrain").isSome = s.totalStrain.isSome)
    ∧ ((getKey (buildItem s) "sleepDuration").isSome = s.sleepDuration.isSome)
    ∧ ((getKey (buildItem s) "averageHRV").isSome = s.averageHRV.isSome)
    ∧ ((getKey (buildItem s) "restingHeartRate").isSome =
        s.restingHeartRate.isSome)
    ∧ ((getKey (buildItem s) "respiratoryRate").isSome =
        s.respiratoryRate.isSome)
    ∧ (getKey (buildItem s) "userId").isSome = true
    ∧ (getKey (buildItem s) "recordId").isSome = true
    ∧ (getKey (buildItem s) "date").isSome = true
    ∧ (getKey (buildItem s) "computedAt").isSome = true
    ∧ (getKey (buildItem s) "ttl").isSome = true
    ∧ getKey (buildItem s) "dataCompleteness" =
        some (AttrValue.map
          [("hasSleep", AttrValue.boolV s.dataCompleteness.hasSleep),
           ("hasRecovery", AttrValue.boolV s.dataCompleteness.hasRecovery),
           ("hasWorkout", AttrValue.boolV s.dataCompleteness.hasWorkout),
           ("hasCycle", AttrValue.boolV s.dataCompleteness.hasCycle),
           ("hasPhysiological",
             AttrValue.boolV s.dataCompleteness.hasPhysiological)]) := by
  refine ⟨?_, ?_, ?_, ?_, ?_, ?_, ?_, ?_, ?_, ?_, ?_, ?_, ?_⟩ <;>
    simp [buildItem, getKey_append, getKey_optEntry_self, getKey_optEntry_ne,
      getKey, Option.isSome_map]
